import Mathlib

/-!
Verification development for the network-sentinel frontend API client
(frontend/src/lib/api.ts) and dashboard scan-polling logic, together with a
spec-modelled risk scorer for the backend scoring rules.

The embedding is shallow: the TypeScript client state (the stored bearer
token in localStorage) is an explicit `Option String`, HTTP responses are
explicit records, JSON values are a small inductive, and each API function
becomes a pure Lean function from the token state and the response/outcome
to the new token state and an `Except` result, mirroring throw/return.
-/

namespace NetworkSentinel

/-- A JSON value, as produced by `res.json()` / consumed by `JSON.stringify`. -/
inductive Json where
  | null : Json
  | bool : Bool → Json
  | num : Int → Json
  | str : String → Json
  | arr : List Json → Json
  | obj : List (String × Json) → Json

/-- Keys of a JSON object (empty for non-objects). -/
def objKeys : Json → List String
  | Json.obj fields => fields.map Prod.fst
  | _ => []

/-- Field lookup on a JSON object (none for non-objects / missing keys). -/
def jsonLookup (k : String) : Json → Option Json
  | Json.obj fields => fields.lookup k
  | _ => none

/-- A JavaScript exception, as thrown by the api.ts client:
`error m` is `new Error(m)`, `abortError` the AbortController's DOMException,
`parseError` a rejection of `res.json()`. -/
inductive JsError where
  | error : String → JsError
  | abortError : JsError
  | parseError : JsError
deriving DecidableEq

/-- An HTTP response as seen by the client: its status code and its body as
parsed by `res.json()` (`none` when the body is not valid JSON, in which
case `res.json()` rejects). -/
structure Response where
  status : Nat
  body : Option Json

/-- Model of `res.ok` of the fetch API: status in the range 200..299. -/
def Response.ok (r : Response) : Bool :=
  decide (200 ≤ r.status) && decide (r.status < 300)

/-- JS `error.detail || fallback`: the `detail` field of the parsed error
body when it is a non-empty string, else the fallback (also used when the
body failed to parse, via `.catch`). -/
def detailOr (body : Option Json) (fallback : String) : String :=
  match body with
  | some (Json.obj fields) =>
    match fields.lookup "detail" with
    | some (Json.str s) => if s = "" then fallback else s
    | _ => fallback
  | _ => fallback

/-- Model of `isAuthenticated()` from api.ts: `!!getToken()` on the stored token. -/
def isAuthenticated (tok : Option String) : Bool := tok.isSome

/-- Model of `authHeaders()` from api.ts: the Authorization header exactly when a
token is stored. -/
def authHeaders (tok : Option String) : List (String × String) :=
  match tok with
  | some t => [("Authorization", "Bearer " ++ t)]
  | none => []

/-- An outgoing HTTP request as assembled by a fetch call in api.ts. -/
structure Request where
  method : String
  url : String
  headers : List (String × String)
  body : Option Json

/-- The Authorization header value of a request, if present. -/
def authOf (r : Request) : Option String := r.headers.lookup "Authorization"

/-- The Authorization value a stored token should produce. -/
def bearerOf (tok : Option String) : Option String :=
  tok.map (fun t => "Bearer " ++ t)

/-- Model of `handleResponse` from api.ts: on a 401 remove the stored token and throw
`Session expired`; on any other non-ok response throw the error detail; on an
ok response return the parsed JSON body. Returns the new token state and the
outcome. -/
def handleResponse (tok : Option String) (r : Response) :
    Option String × Except JsError Json :=
  if r.status = 401 then
    (none, Except.error (JsError.error "Session expired"))
  else if r.ok = false then
    (tok, Except.error (JsError.error (detailOr r.body "Request failed")))
  else
    match r.body with
    | some j => (tok, Except.ok j)
    | none => (tok, Except.error JsError.parseError)

/-- Model of `getRiskColor` from api.ts. -/
def getRiskColor (level : String) : String :=
  if level = "HIGH" then "text-cyber-red"
  else if level = "MEDIUM" then "text-cyber-yellow"
  else if level = "LOW" then "text-cyber-blue"
  else "text-cyber-green"

/-- Model of `getRiskBgColor` from api.ts. -/
def getRiskBgColor (level : String) : String :=
  if level = "HIGH" then "bg-cyber-red/20 border-cyber-red"
  else if level = "MEDIUM" then "bg-cyber-yellow/20 border-cyber-yellow"
  else if level = "LOW" then "bg-cyber-blue/20 border-cyber-blue"
  else "bg-cyber-green/20 border-cyber-green"

/-- Outcome of an awaited fetch inside a try/catch: it resolved to a
response, the AbortController aborted it, or it failed with another error. -/
inductive FetchOutcome where
  | success : Response → FetchOutcome
  | aborted : FetchOutcome
  | failure : JsError → FetchOutcome

/-- Timeout installed by `fetchAISummary`: `setTimeout(() => controller.abort(), 120000)`. -/
def AI_SUMMARY_TIMEOUT_MS : Nat := 120000

/-- Timeout installed by `fetchAIAnalysis`: `setTimeout(() => controller.abort(), 180000)`. -/
def AI_ANALYSIS_TIMEOUT_MS : Nat := 180000

/-- Whether the abort timer fires before the server answers: the request is
aborted exactly when the server takes at least `timeoutMs` to respond. -/
def aiOutcome (timeoutMs elapsedMs : Nat) (r : Response) : FetchOutcome :=
  if timeoutMs ≤ elapsedMs then FetchOutcome.aborted else FetchOutcome.success r

/-- The shared catch logic of `fetchAISummary` / `fetchAIAnalysis`: a resolved
response goes through `handleResponse`; an AbortError is rethrown as
`AI request timed out`; any other error is rethrown unchanged. The token
state is only touched by `handleResponse` on the success path. -/
def aiFetchRun (tok : Option String) (o : FetchOutcome) :
    Option String × Except JsError Json :=
  match o with
  | FetchOutcome.success r => handleResponse tok r
  | FetchOutcome.aborted => (tok, Except.error (JsError.error "AI request timed out"))
  | FetchOutcome.failure e => (tok, Except.error e)

/-- Model of `fetchAISummary` from api.ts, as a function of the stored token, the
server's response latency and its response. -/
def fetchAISummary (tok : Option String) (elapsedMs : Nat) (r : Response) :
    Option String × Except JsError Json :=
  aiFetchRun tok (aiOutcome AI_SUMMARY_TIMEOUT_MS elapsedMs r)

/-- Model of `fetchAIAnalysis` from api.ts, as a function of the stored token, the
server's response latency and its response. -/
def fetchAIAnalysis (tok : Option String) (elapsedMs : Nat) (r : Response) :
    Option String × Except JsError Json :=
  aiFetchRun tok (aiOutcome AI_ANALYSIS_TIMEOUT_MS elapsedMs r)

/-- Outcome of the fetch in `login`: a network error (fetch rejected) or an
HTTP response. -/
inductive LoginOutcome where
  | networkError : String → LoginOutcome
  | response : Response → LoginOutcome

/-- The `access_token` string field of the login response body, if present. -/
def accessTokenOf (j : Json) : Option String :=
  match jsonLookup "access_token" j with
  | some (Json.str s) => some s
  | _ => none

/-- Model of `login` from api.ts: on a non-ok response throw the error detail (default
`Login failed`); on an ok response parse the body, store `data.access_token`
via `setToken` (localStorage coerces a missing field to the string
"undefined"), and return the data. The stored token is written only on the
ok path. -/
def loginRun (tok : Option String) (o : LoginOutcome) :
    Option String × Except JsError Json :=
  match o with
  | LoginOutcome.networkError m => (tok, Except.error (JsError.error m))
  | LoginOutcome.response r =>
    if r.ok = false then
      (tok, Except.error (JsError.error (detailOr r.body "Login failed")))
    else
      match r.body with
      | none => (tok, Except.error JsError.parseError)
      | some j =>
        (some (match accessTokenOf j with
               | some s => s
               | none => "undefined"),
         Except.ok j)

/-- Body of `startScan`: `JSON.stringify({ network, scan_ports: true })` —
an undefined network is omitted from the serialized object. -/
def startScanBody (network : Option String) : List (String × Json) :=
  (match network with
   | some n => [("network", Json.str n)]
   | none => []) ++ [("scan_ports", Json.bool true)]

/-- The request assembled by `startScan`. -/
def startScanReq (base : String) (tok : Option String) (network : Option String) :
    Request :=
  { method := "POST", url := base ++ "/api/scan/start",
    headers := ("Content-Type", "application/json") :: authHeaders tok,
    body := some (Json.obj (startScanBody network)) }

/-- The request assembled by `fetchLatestScan`. -/
def fetchLatestScanReq (base : String) (tok : Option String) : Request :=
  { method := "GET", url := base ++ "/api/scan/latest",
    headers := authHeaders tok, body := none }

/-- The request assembled by `fetchScanHistory` (default limit 50). -/
def fetchScanHistoryReq (base : String) (tok : Option String)
    (limit : Nat := 50) : Request :=
  { method := "GET", url := base ++ "/api/scan/history?limit=" ++ toString limit,
    headers := authHeaders tok, body := none }

/-- The request assembled by `fetchHistoricalScan`. -/
def fetchHistoricalScanReq (base : String) (tok : Option String)
    (scanId : Nat) : Request :=
  { method := "GET", url := base ++ "/api/scan/history/" ++ toString scanId,
    headers := authHeaders tok, body := none }

/-- The request assembled by `fetchAlerts` (default limit 100). -/
def fetchAlertsReq (base : String) (tok : Option String)
    (limit : Nat := 100) : Request :=
  { method := "GET", url := base ++ "/api/alerts?limit=" ++ toString limit,
    headers := authHeaders tok, body := none }

/-- The request assembled by `fetchAISummary`. -/
def fetchAISummaryReq (base : String) (tok : Option String) : Request :=
  { method := "GET", url := base ++ "/api/ai/quick-summary",
    headers := authHeaders tok, body := none }

/-- The request assembled by `fetchAIAnalysis`:
`JSON.stringify({ device_ip: deviceIp })` omits an undefined device_ip. -/
def fetchAIAnalysisReq (base : String) (tok : Option String)
    (deviceIp : Option String) : Request :=
  { method := "POST", url := base ++ "/api/ai/analyze",
    headers := ("Content-Type", "application/json") :: authHeaders tok,
    body := some (Json.obj (match deviceIp with
      | some ip => [("device_ip", Json.str ip)]
      | none => [])) }

/-- The request assembled by `configureDiscordWebhook`. -/
def configureDiscordWebhookReq (base : String) (tok : Option String)
    (webhookUrl : String) : Request :=
  { method := "POST", url := base ++ "/api/settings/discord",
    headers := ("Content-Type", "application/json") :: authHeaders tok,
    body := some (Json.obj [("webhook_url", Json.str webhookUrl)]) }

/-- The request assembled by `testDiscordWebhook`. -/
def testDiscordWebhookReq (base : String) (tok : Option String) : Request :=
  { method := "POST", url := base ++ "/api/settings/discord/test",
    headers := authHeaders tok, body := none }

/-- The request assembled by `getDiscordSettings`. -/
def getDiscordSettingsReq (base : String) (tok : Option String) : Request :=
  { method := "GET", url := base ++ "/api/settings/discord",
    headers := authHeaders tok, body := none }

/-- Polling interval of `handleScan` in the dashboard: `setInterval(..., 3000)`. -/
def POLL_INTERVAL_MS : Nat := 3000

/-- Watchdog of `handleScan`: `setTimeout(..., 120000)` stops polling. -/
def SCAN_POLL_DEADLINE_MS : Nat := 120000

/-- The completion test of `handleScan`:
`newResults.scan_time !== scanResults?.scan_time`. When no scan results are
displayed (`scanResults` is null) the optional chain yields undefined and any
fetched string differs from it. -/
def scanTimeDiffers (displayed : Option String) (fetched : String) : Bool :=
  match displayed with
  | none => true
  | some t => fetched != t

/-- The poll loop of `handleScan`: every tick fetches `/api/scan/latest`
(`none` = the fetch threw, swallowed by the empty catch) and finishes at the
first tick whose fetched scan_time differs from the displayed one. Returns
the index of the finishing tick, if any. -/
def handleScanPoll (displayed : Option String) :
    List (Option String) → Option Nat
  | [] => none
  | none :: rest => (handleScanPoll displayed rest).map (· + 1)
  | some t :: rest =>
    if scanTimeDiffers displayed t then some 0
    else (handleScanPoll displayed rest).map (· + 1)

/-- Risk level of a device, `enum{HIGH, MEDIUM, LOW, MINIMAL}`. -/
inductive RiskLevel where
  | HIGH : RiskLevel
  | MEDIUM : RiskLevel
  | LOW : RiskLevel
  | MINIMAL : RiskLevel
deriving DecidableEq

/-- Wire string of a risk level. -/
def riskLevelToString : RiskLevel → String
  | RiskLevel.HIGH => "HIGH"
  | RiskLevel.MEDIUM => "MEDIUM"
  | RiskLevel.LOW => "LOW"
  | RiskLevel.MINIMAL => "MINIMAL"

/-- One entry of `Device.ports` in api.ts. -/
structure PortEntry where
  port : Nat
  service : String

/-- `Device.risk` in api.ts. -/
structure RiskAssessment where
  score : Int
  level : RiskLevel
  reasons : List String

/-- The `Device` interface of api.ts. -/
structure Device where
  ip : String
  mac : String
  hostname : Option String
  vendor : String
  ports : List PortEntry
  risk : RiskAssessment

/-- The `ScanHistoryItem` interface of api.ts. -/
structure ScanHistoryItem where
  id : Int
  scan_time : String
  network : String
  device_count : Int
  high_risk_count : Int
  medium_risk_count : Int
  low_risk_count : Int
  minimal_risk_count : Int
  total_open_ports : Int
  created_at : String

/-- The response type of `fetchScanHistory` in api.ts. -/
structure ScanHistoryResponse where
  scans : List ScanHistoryItem
  count : Int

/-- Wire JSON of one ports entry. -/
def portEntryToJson (p : PortEntry) : Json :=
  Json.obj [("port", Json.num p.port), ("service", Json.str p.service)]

/-- Wire JSON of a risk assessment. -/
def riskToJson (r : RiskAssessment) : Json :=
  Json.obj [("score", Json.num r.score),
            ("level", Json.str (riskLevelToString r.level)),
            ("reasons", Json.arr (r.reasons.map Json.str))]

/-- Wire JSON of a device, per the api.ts `Device` interface. -/
def deviceToJson (d : Device) : Json :=
  Json.obj [("ip", Json.str d.ip),
            ("mac", Json.str d.mac),
            ("hostname", match d.hostname with
              | some h => Json.str h
              | none => Json.null),
            ("vendor", Json.str d.vendor),
            ("ports", Json.arr (d.ports.map portEntryToJson)),
            ("risk", riskToJson d.risk)]

/-- Wire JSON of a scan-history entry, per the api.ts `ScanHistoryItem`. -/
def scanHistoryItemToJson (i : ScanHistoryItem) : Json :=
  Json.obj [("id", Json.num i.id),
            ("scan_time", Json.str i.scan_time),
            ("network", Json.str i.network),
            ("device_count", Json.num i.device_count),
            ("high_risk_count", Json.num i.high_risk_count),
            ("medium_risk_count", Json.num i.medium_risk_count),
            ("low_risk_count", Json.num i.low_risk_count),
            ("minimal_risk_count", Json.num i.minimal_risk_count),
            ("total_open_ports", Json.num i.total_open_ports),
            ("created_at", Json.str i.created_at)]

/-- Wire JSON of the `fetchScanHistory` response shape. -/
def scanHistoryResponseToJson (r : ScanHistoryResponse) : Json :=
  Json.obj [("scans", Json.arr (r.scans.map scanHistoryItemToJson)),
            ("count", Json.num r.count)]

/-- Modelled from the spec: the RiskScorer lives in the Python backend
(scanner / backend packages), which is not under src/; only §4.3 of the spec
describes it. Clamp of the summed rule weights to the interval 0..100. -/
def clampScore (s : Int) : Int := max 0 (min s 100)

/-- Modelled from the spec: score is the sum of the fired rule weights,
clamped to 0..100. -/
def riskScore (weights : List Int) : Int := clampScore weights.sum

/-- Modelled from the spec: level thresholds — score at least 70 is HIGH,
at least 40 is MEDIUM, at least 15 is LOW, else MINIMAL. -/
def riskLevelOf (score : Int) : RiskLevel :=
  if 70 ≤ score then RiskLevel.HIGH
  else if 40 ≤ score then RiskLevel.MEDIUM
  else if 15 ≤ score then RiskLevel.LOW
  else RiskLevel.MINIMAL

/-- Modelled from the spec: the assessment built by the RiskScorer from the
fired rules' weights and reasons. -/
def assessRisk (weights : List Int) (reasons : List String) : RiskAssessment :=
  { score := riskScore weights,
    level := riskLevelOf (riskScore weights),
    reasons := reasons }

end NetworkSentinel

namespace NetworkSentinel

/-- C10: getRiskColor and getRiskBgColor are total over arbitrary strings;
every input other than HIGH, MEDIUM, LOW — including MINIMAL and any
unrecognized level — falls through to the green default, so MINIMAL and
unknown levels render identically. -/
theorem riskColor_default_green (s : String)
    (h1 : s ≠ "HIGH") (h2 : s ≠ "MEDIUM") (h3 : s ≠ "LOW") :
    getRiskColor s = "text-cyber-green" ∧
    getRiskBgColor s = "bg-cyber-green/20 border-cyber-green" ∧
    getRiskColor s = getRiskColor "MINIMAL" ∧
    getRiskBgColor s = getRiskBgColor "MINIMAL" := by
  refine ⟨?_, ?_, ?_, ?_⟩ <;> simp [getRiskColor, getRiskBgColor, h1, h2, h3]

/-- Witness for C10 at the concrete inputs MINIMAL and an unknown level. -/
theorem riskColor_default_green_witness :
    getRiskColor "MINIMAL" = "text-cyber-green" ∧
    getRiskBgColor "UNKNOWN" = "bg-cyber-green/20 border-cyber-green" :=
  ⟨(riskColor_default_green "MINIMAL" (by decide) (by decide) (by decide)).1,
   (riskColor_default_green "UNKNOWN" (by decide) (by decide) (by decide)).2.1⟩

/-- Helper: an ok response with a parsed body is returned unchanged by
handleResponse (an ok status is never 401). -/
theorem handleResponse_ok_eq (tok : Option String) (r : Response) (j : Json)
    (hb : r.body = some j) (hok : r.ok = true) :
    handleResponse tok r = (tok, Except.ok j) := by
  have h401 : r.status ≠ 401 := by
    simp only [Response.ok, Bool.and_eq_true, decide_eq_true_eq] at hok
    omega
  simp [handleResponse, h401, hok, hb]

/-- Helper: soundness of the poll loop — a finishing tick carries a fetched
scan_time that differs from the displayed one, and every earlier successful
fetch carried an unchanged scan_time. -/
theorem handleScanPoll_sound (displayed : Option String)
    (polls : List (Option String)) :
    ∀ i, handleScanPoll displayed polls = some i →
      ∃ t, polls[i]? = some (some t) ∧ scanTimeDiffers displayed t = true ∧
        ∀ j, j < i → ∀ u, polls[j]? = some (some u) →
          scanTimeDiffers displayed u = false := by
  induction polls with
  | nil => intro i h; simp [handleScanPoll] at h
  | cons o rest ih =>
    intro i h
    cases o with
    | none =>
      simp only [handleScanPoll, Option.map_eq_some'] at h
      obtain ⟨k, hk, hki⟩ := h
      obtain ⟨t, ht, hd, hearlier⟩ := ih k hk
      subst hki
      refine ⟨t, by simpa using ht, hd, ?_⟩
      intro j hj u hu
      cases j with
      | zero => simp at hu
      | succ j => exact hearlier j (by omega) u (by simpa using hu)
    | some t =>
      by_cases hd : scanTimeDiffers displayed t = true
      · simp only [handleScanPoll, hd, if_true, Option.some_inj] at h
        subst h
        exact ⟨t, by simp, hd, fun j hj => absurd hj (by omega)⟩
      · simp only [handleScanPoll, hd, if_false, Bool.false_eq_true,
          Option.map_eq_some'] at h
        obtain ⟨k, hk, hki⟩ := h
        obtain ⟨u, hu, hud, hearlier⟩ := ih k hk
        subst hki
        refine ⟨u, by simpa using hu, hud, ?_⟩
        intro j hj v hv
        cases j with
        | zero =>
          simp only [List.getElem?_cons_zero, Option.some_inj] at hv
          subst hv
          simpa using hd
        | succ j => exact hearlier j (by omega) v (by simpa using hv)

/-- Helper: completeness of the poll loop — if some tick fetches a
scan_time that differs from the displayed one, the loop finishes at that
tick or earlier. -/
theorem handleScanPoll_complete (displayed : Option String)
    (polls : List (Option String)) :
    ∀ i t, polls[i]? = some (some t) → scanTimeDiffers displayed t = true →
      ∃ k, handleScanPoll displayed polls = some k ∧ k ≤ i := by
  induction polls with
  | nil => intro i t h _; simp at h
  | cons o rest ih =>
    intro i t h hd
    cases i with
    | zero =>
      simp only [List.getElem?_cons_zero, Option.some_inj] at h
      subst h
      exact ⟨0, by simp [handleScanPoll, hd], Nat.le_refl 0⟩
    | succ i =>
      simp only [List.getElem?_cons_succ] at h
      obtain ⟨k, hk, hki⟩ := ih i t h hd
      cases o with
      | none => exact ⟨k + 1, by simp [handleScanPoll, hk], by omega⟩
      | some u =>
        by_cases hdu : scanTimeDiffers displayed u = true
        · exact ⟨0, by simp [handleScanPoll, hdu], by omega⟩
        · exact ⟨k + 1, by simp [handleScanPoll, hdu, hk], by omega⟩

/-- C1: handleScan polls every 3000 ms and treats the scan as completed
exactly when the fetched scan_time differs from the previously displayed
one (an absent displayed scan counts as different); under strictly
increasing scan_time the fresh snapshot is always detected; the poll loop
finishes at the first differing fetch (sound and complete), consuming no
other completion signal. -/
theorem handleScan_polling_contract :
    POLL_INTERVAL_MS = 3000 ∧
    (∀ (displayed : Option String) (fetched : String),
      scanTimeDiffers displayed fetched = true ↔ some fetched ≠ displayed) ∧
    (∀ t0 t1 : String, t0 < t1 → scanTimeDiffers (some t0) t1 = true) ∧
    (∀ (displayed : Option String) (polls : List (Option String)) (i : Nat),
      handleScanPoll displayed polls = some i →
      ∃ t, polls[i]? = some (some t) ∧ scanTimeDiffers displayed t = true ∧
        ∀ j, j < i → ∀ u, polls[j]? = some (some u) →
          scanTimeDiffers displayed u = false) ∧
    (∀ (displayed : Option String) (polls : List (Option String)) (i : Nat)
      (t : String), polls[i]? = some (some t) →
      scanTimeDiffers displayed t = true →
      ∃ k, handleScanPoll displayed polls = some k ∧ k ≤ i) := by
  refine ⟨rfl, ?_, ?_, ?_, ?_⟩
  · intro displayed fetched
    cases displayed <;> simp [scanTimeDiffers]
  · intro t0 t1 h
    simp only [scanTimeDiffers, bne_iff_ne, ne_eq]
    exact fun he => absurd he.symm (ne_of_lt h)
  · exact fun displayed polls => handleScanPoll_sound displayed polls
  · exact fun displayed polls => handleScanPoll_complete displayed polls

/-- Witness for C1: a later timestamp is detected; on a concrete run the
loop skips a failed fetch and an unchanged snapshot and finishes on the
fresh one. -/
theorem handleScan_polling_contract_witness :
    scanTimeDiffers (some "a") "b" = true ∧
    handleScanPoll (some "a") [none, some "a", some "b"] = some 2 :=
  ⟨handleScan_polling_contract.2.2.1 "a" "b"
      (String.lt_iff_toList_lt.mpr (by decide)),
   by decide⟩

/-- C8: handleResponse removes the stored token and throws `Session expired`
on every 401; it never returns a value for a 401 or any other non-ok
response; and for a response whose body parsed to j it returns j exactly
when the response is ok. -/
theorem handleResponse_behavior (tok : Option String) (r : Response) (j : Json)
    (hb : r.body = some j) :
    (r.status = 401 →
      handleResponse tok r = (none, Except.error (JsError.error "Session expired"))) ∧
    (r.ok = false → ∀ v : Json, (handleResponse tok r).2 ≠ Except.ok v) ∧
    ((handleResponse tok r).2 = Except.ok j ↔ r.ok = true) ∧
    (r.ok = true → handleResponse tok r = (tok, Except.ok j)) := by
  have hok401 : r.ok = true → r.status ≠ 401 := by
    intro h
    simp only [Response.ok, Bool.and_eq_true, decide_eq_true_eq] at h
    omega
  refine ⟨?_, ?_, ?_, ?_⟩
  · intro h401
    have : r.ok = false := by
      simp only [Response.ok, Bool.and_eq_true]
      simp only [h401]
      decide
    simp [handleResponse, h401]
  · intro hnok v
    by_cases h401 : r.status = 401 <;> simp [handleResponse, h401, hnok]
  · constructor
    · intro h
      by_cases h401 : r.status = 401
      · simp [handleResponse, h401] at h
      · rcases hok : r.ok with _ | _
        · simp [handleResponse, h401, hok] at h
        · rfl
    · intro hok
      simp [handleResponse, hok401 hok, hok, hb]
  · intro hok
    simp [handleResponse, hok401 hok, hok, hb]

/-- Witness for C8 at a concrete 401 response and a concrete ok response. -/
theorem handleResponse_behavior_witness :
    handleResponse (some "tok") ⟨401, some Json.null⟩ =
      (none, Except.error (JsError.error "Session expired")) ∧
    handleResponse (some "tok") ⟨200, some (Json.str "data")⟩ =
      (some "tok", Except.ok (Json.str "data")) :=
  ⟨(handleResponse_behavior (some "tok") ⟨401, some Json.null⟩ Json.null rfl).1 rfl,
   (handleResponse_behavior (some "tok") ⟨200, some (Json.str "data")⟩
      (Json.str "data") rfl).2.2.2 (by decide)⟩

/-- C9: login is atomic with respect to the stored token: on every failed
attempt (thrown error, from a network failure, a non-ok response, or an
unparseable ok body) the stored token and isAuthenticated are unchanged, and
the token changes only on an ok response. -/
theorem login_atomic (tok : Option String) (o : LoginOutcome) :
    (∀ e : JsError, (loginRun tok o).2 = Except.error e →
      (loginRun tok o).1 = tok ∧
      isAuthenticated (loginRun tok o).1 = isAuthenticated tok) ∧
    ((loginRun tok o).1 ≠ tok →
      ∃ r : Response, o = LoginOutcome.response r ∧ r.ok = true) := by
  cases o with
  | networkError m => exact ⟨fun e _ => ⟨rfl, rfl⟩, fun h => absurd rfl h⟩
  | response r =>
    rcases hok : r.ok with _ | _
    · refine ⟨fun e _ => ⟨?_, ?_⟩, fun h => ?_⟩
      · simp [loginRun, hok]
      · simp [loginRun, hok]
      · exact absurd (by simp [loginRun, hok]) h
    · rcases hb : r.body with _ | j
      · refine ⟨fun e _ => ⟨?_, ?_⟩, fun h => ?_⟩
        · simp [loginRun, hok, hb]
        · simp [loginRun, hok, hb]
        · exact absurd (by simp [loginRun, hok, hb]) h
      · refine ⟨fun e he => ?_, fun _ => ⟨r, rfl, hok⟩⟩
        simp [loginRun, hok, hb] at he

/-- Witness for C9 at a concrete failed login (HTTP 401) and a concrete
network failure. -/
theorem login_atomic_witness :
    (loginRun (some "old") (LoginOutcome.response ⟨401, some Json.null⟩)).1 = some "old" ∧
    (loginRun none (LoginOutcome.networkError "down")).1 = none :=
  ⟨((login_atomic (some "old") (LoginOutcome.response ⟨401, some Json.null⟩)).1
      (JsError.error "Login failed") rfl).1,
   ((login_atomic none (LoginOutcome.networkError "down")).1
      (JsError.error "down") rfl).1⟩

/-- C2: fetchAISummary aborts after exactly 120000 ms and fetchAIAnalysis
after exactly 180000 ms; when the abort fires the call throws
`AI request timed out` and leaves the stored token state untouched; below
the bound each call is ordinary response handling. -/
theorem fetchAI_timeouts :
    AI_SUMMARY_TIMEOUT_MS = 120000 ∧
    AI_ANALYSIS_TIMEOUT_MS = 180000 ∧
    (∀ (tok : Option String) (elapsedMs : Nat) (r : Response),
      120000 ≤ elapsedMs →
      fetchAISummary tok elapsedMs r =
        (tok, Except.error (JsError.error "AI request timed out"))) ∧
    (∀ (tok : Option String) (elapsedMs : Nat) (r : Response),
      elapsedMs < 120000 →
      fetchAISummary tok elapsedMs r = handleResponse tok r) ∧
    (∀ (tok : Option String) (elapsedMs : Nat) (r : Response),
      180000 ≤ elapsedMs →
      fetchAIAnalysis tok elapsedMs r =
        (tok, Except.error (JsError.error "AI request timed out"))) ∧
    (∀ (tok : Option String) (elapsedMs : Nat) (r : Response),
      elapsedMs < 180000 →
      fetchAIAnalysis tok elapsedMs r = handleResponse tok r) := by
  refine ⟨rfl, rfl, ?_, ?_, ?_, ?_⟩ <;>
    intro tok elapsedMs r h <;>
    simp [fetchAISummary, fetchAIAnalysis, aiFetchRun, aiOutcome,
      AI_SUMMARY_TIMEOUT_MS, AI_ANALYSIS_TIMEOUT_MS, h, Nat.not_le.mpr h]

/-- Witness for C2: at exactly the bound the abort fires and the token is
untouched; just below the bound the response is handled normally. -/
theorem fetchAI_timeouts_witness :
    fetchAISummary (some "tok") 120000 ⟨200, some Json.null⟩ =
      (some "tok", Except.error (JsError.error "AI request timed out")) ∧
    fetchAIAnalysis (some "tok") 179999 ⟨200, some Json.null⟩ =
      handleResponse (some "tok") ⟨200, some Json.null⟩ :=
  ⟨fetchAI_timeouts.2.2.1 (some "tok") 120000 ⟨200, some Json.null⟩ (by decide),
   fetchAI_timeouts.2.2.2.2.2 (some "tok") 179999 ⟨200, some Json.null⟩ (by decide)⟩

/-- C3: the Device type reproduces the wire contract exactly — serialized
devices carry exactly the keys ip, mac, hostname, vendor, ports, risk in
order; ports entries carry exactly port and service; risk carries exactly
score, level, reasons; hostname serializes to a string or null; and the
level is drawn from exactly the four values HIGH, MEDIUM, LOW, MINIMAL. -/
theorem device_wire_contract :
    (∀ d : Device, objKeys (deviceToJson d) =
      ["ip", "mac", "hostname", "vendor", "ports", "risk"]) ∧
    (∀ d : Device, jsonLookup "risk" (deviceToJson d) = some (riskToJson d.risk)) ∧
    (∀ r : RiskAssessment, objKeys (riskToJson r) = ["score", "level", "reasons"]) ∧
    (∀ p : PortEntry, objKeys (portEntryToJson p) = ["port", "service"]) ∧
    (∀ d : Device, jsonLookup "hostname" (deviceToJson d) =
      some (match d.hostname with
            | some h => Json.str h
            | none => Json.null)) ∧
    (∀ l : RiskLevel,
      riskLevelToString l = "HIGH" ∨ riskLevelToString l = "MEDIUM" ∨
      riskLevelToString l = "LOW" ∨ riskLevelToString l = "MINIMAL") ∧
    (∀ s : String, (∃ l : RiskLevel, riskLevelToString l = s) ↔
      s = "HIGH" ∨ s = "MEDIUM" ∨ s = "LOW" ∨ s = "MINIMAL") := by
  refine ⟨?_, ?_, ?_, ?_, ?_, ?_, ?_⟩
  · intro d; rfl
  · intro d; simp [jsonLookup, deviceToJson, List.lookup]
  · intro r; rfl
  · intro p; rfl
  · intro d; simp [jsonLookup, deviceToJson, List.lookup]
  · intro l; cases l <;> simp [riskLevelToString]
  · intro s
    constructor
    · rintro ⟨l, rfl⟩
      cases l <;> simp [riskLevelToString]
    · rintro (rfl | rfl | rfl | rfl)
      · exact ⟨RiskLevel.HIGH, rfl⟩
      · exact ⟨RiskLevel.MEDIUM, rfl⟩
      · exact ⟨RiskLevel.LOW, rfl⟩
      · exact ⟨RiskLevel.MINIMAL, rfl⟩

/-- Witness for C3 at a concrete device. -/
theorem device_wire_contract_witness :
    objKeys (deviceToJson
      ⟨"192.168.1.2", "aa:bb:cc:dd:ee:ff", none, "Unknown",
        [⟨22, "ssh"⟩], ⟨25, RiskLevel.LOW, ["SSH exposed"]⟩⟩) =
      ["ip", "mac", "hostname", "vendor", "ports", "risk"] :=
  device_wire_contract.1
    ⟨"192.168.1.2", "aa:bb:cc:dd:ee:ff", none, "Unknown",
      [⟨22, "ssh"⟩], ⟨25, RiskLevel.LOW, ["SSH exposed"]⟩⟩

/-- C4: every request of the protected §6 endpoints carries
Authorization: Bearer token exactly when a token is stored, and no
Authorization header at all when none is stored. -/
theorem bearer_auth_on_protected_requests :
    (authHeaders none = []) ∧
    (∀ t : String, authHeaders (some t) = [("Authorization", "Bearer " ++ t)]) ∧
    (∀ (base : String) (tok : Option String) (network deviceIp : Option String)
      (limit altLimit scanId : Nat) (hook : String),
      authOf (startScanReq base tok network) = bearerOf tok ∧
      authOf (fetchLatestScanReq base tok) = bearerOf tok ∧
      authOf (fetchScanHistoryReq base tok limit) = bearerOf tok ∧
      authOf (fetchHistoricalScanReq base tok scanId) = bearerOf tok ∧
      authOf (fetchAlertsReq base tok altLimit) = bearerOf tok ∧
      authOf (fetchAISummaryReq base tok) = bearerOf tok ∧
      authOf (fetchAIAnalysisReq base tok deviceIp) = bearerOf tok ∧
      authOf (getDiscordSettingsReq base tok) = bearerOf tok ∧
      authOf (configureDiscordWebhookReq base tok hook) = bearerOf tok ∧
      authOf (testDiscordWebhookReq base tok) = bearerOf tok) := by
  refine ⟨rfl, fun t => rfl, ?_⟩
  intro base tok network deviceIp limit altLimit scanId hook
  cases tok <;>
    simp [authOf, bearerOf, authHeaders, startScanReq, fetchLatestScanReq,
      fetchScanHistoryReq, fetchHistoricalScanReq, fetchAlertsReq,
      fetchAISummaryReq, fetchAIAnalysisReq, getDiscordSettingsReq,
      configureDiscordWebhookReq, testDiscordWebhookReq, List.lookup]

/-- Witness for C4 at a concrete token and concrete arguments. -/
theorem bearer_auth_on_protected_requests_witness :
    authOf (startScanReq "http://localhost:8000" (some "tok") none) =
      some "Bearer tok" ∧
    authOf (fetchAlertsReq "http://localhost:8000" none 100) = none :=
  ⟨(bearer_auth_on_protected_requests.2.2 "http://localhost:8000" (some "tok")
      none none 50 100 1 "h").1,
   (bearer_auth_on_protected_requests.2.2 "http://localhost:8000" none
      none none 50 100 1 "h").2.2.2.2.1⟩

/-- C5: startScan POSTs to /api/scan/start with scan_ports always true in
the body, a network field exactly when the argument is provided (undefined
is omitted), and returns the parsed response body on success. -/
theorem startScan_request_shape :
    ∀ (base : String) (tok : Option String) (n : Option String),
      (startScanReq base tok n).method = "POST" ∧
      (startScanReq base tok n).url = base ++ "/api/scan/start" ∧
      (startScanReq base tok n).body = some (Json.obj (startScanBody n)) ∧
      (startScanBody n).lookup "scan_ports" = some (Json.bool true) ∧
      (startScanBody n).lookup "network" = n.map Json.str ∧
      (n = none → (startScanBody n).map Prod.fst = ["scan_ports"]) ∧
      (∀ (tok2 : Option String) (r : Response) (j : Json),
        r.body = some j → r.ok = true →
        handleResponse tok2 r = (tok2, Except.ok j)) := by
  intro base tok n
  refine ⟨rfl, rfl, rfl, ?_, ?_, ?_, fun tok2 r j hb hok => handleResponse_ok_eq tok2 r j hb hok⟩
  · cases n <;> simp [startScanBody, List.lookup]
  · cases n <;> simp [startScanBody, List.lookup]
  · rintro rfl; rfl

/-- Witness for C5 with and without the optional network argument. -/
theorem startScan_request_shape_witness :
    (startScanBody none).lookup "network" = none ∧
    (startScanBody (some "192.168.1.0/24")).lookup "network" =
      some (Json.str "192.168.1.0/24") ∧
    (startScanBody (some "192.168.1.0/24")).lookup "scan_ports" =
      some (Json.bool true) :=
  ⟨(startScan_request_shape "b" none none).2.2.2.2.1,
   (startScan_request_shape "b" none (some "192.168.1.0/24")).2.2.2.2.1,
   (startScan_request_shape "b" none (some "192.168.1.0/24")).2.2.2.1⟩

/-- C6: a scan-history entry carries id, scan_time, network, device_count,
one count per risk level, total_open_ports (and created_at); fetchScanHistory
GETs /api/scan/history with a limit query parameter defaulting to 50 and its
response shape is scans plus count. -/
theorem scanHistory_contract :
    (∀ i : ScanHistoryItem, objKeys (scanHistoryItemToJson i) =
      ["id", "scan_time", "network", "device_count", "high_risk_count",
       "medium_risk_count", "low_risk_count", "minimal_risk_count",
       "total_open_ports", "created_at"]) ∧
    (∀ r : ScanHistoryResponse,
      objKeys (scanHistoryResponseToJson r) = ["scans", "count"]) ∧
    (∀ (base : String) (tok : Option String) (limit : Nat),
      (fetchScanHistoryReq base tok limit).method = "GET" ∧
      (fetchScanHistoryReq base tok limit).url =
        base ++ "/api/scan/history?limit=" ++ toString limit) ∧
    (∀ (base : String) (tok : Option String),
      fetchScanHistoryReq base tok = fetchScanHistoryReq base tok 50) := by
  refine ⟨fun i => rfl, fun r => rfl, fun base tok limit => ⟨rfl, rfl⟩,
    fun base tok => rfl⟩

/-- Witness for C6 at a concrete entry and concrete request. -/
theorem scanHistory_contract_witness :
    objKeys (scanHistoryItemToJson ⟨1, "t", "n", 2, 0, 1, 1, 0, 3, "c"⟩) =
      ["id", "scan_time", "network", "device_count", "high_risk_count",
       "medium_risk_count", "low_risk_count", "minimal_risk_count",
       "total_open_ports", "created_at"] ∧
    (fetchScanHistoryReq "http://localhost:8000" none).url =
      "http://localhost:8000/api/scan/history?limit=50" :=
  ⟨scanHistory_contract.1 ⟨1, "t", "n", 2, 0, 1, 1, 0, 3, "c"⟩,
   ((scanHistory_contract.2.2.1 "http://localhost:8000" none 50).2.trans
     (by decide))⟩

/-- C7: the risk score is the sum of fired rule weights clamped to the
interval 0..100, and the level is determined from the clamped score by the
70 / 40 / 15 thresholds. -/
theorem riskScorer_clamp_thresholds :
    ∀ (ws : List Int) (rs : List String),
      (assessRisk ws rs).score = max 0 (min ws.sum 100) ∧
      0 ≤ (assessRisk ws rs).score ∧
      (assessRisk ws rs).score ≤ 100 ∧
      (assessRisk ws rs).reasons = rs ∧
      ((assessRisk ws rs).level = RiskLevel.HIGH ↔
        70 ≤ (assessRisk ws rs).score) ∧
      ((assessRisk ws rs).level = RiskLevel.MEDIUM ↔
        40 ≤ (assessRisk ws rs).score ∧ (assessRisk ws rs).score < 70) ∧
      ((assessRisk ws rs).level = RiskLevel.LOW ↔
        15 ≤ (assessRisk ws rs).score ∧ (assessRisk ws rs).score < 40) ∧
      ((assessRisk ws rs).level = RiskLevel.MINIMAL ↔
        (assessRisk ws rs).score < 15) := by
  intro ws rs
  have hb : 0 ≤ clampScore ws.sum ∧ clampScore ws.sum ≤ 100 := by
    unfold clampScore
    omega
  refine ⟨rfl, hb.1, hb.2, rfl, ?_, ?_, ?_, ?_⟩ <;>
    simp only [assessRisk, riskScore, riskLevelOf] <;>
    split_ifs with h1 h2 h3 <;>
    simp_all <;> omega

/-- Witness for C7 at concrete weight lists on both sides of each
threshold and of the clamp. -/
theorem riskScorer_clamp_thresholds_witness :
    (assessRisk [50, 40, 30] []).score = 100 ∧
    ((assessRisk [50, 40, 30] []).level = RiskLevel.HIGH ↔
      70 ≤ (assessRisk [50, 40, 30] []).score) ∧
    ((assessRisk [10] ["r"]).level = RiskLevel.MINIMAL ↔
      (assessRisk [10] ["r"]).score < 15) :=
  ⟨by decide,
   (riskScorer_clamp_thresholds [50, 40, 30] []).2.2.2.2.1,
   (riskScorer_clamp_thresholds [10] ["r"]).2.2.2.2.2.2.2⟩

end NetworkSentinel
